import Mathlib

/-!
Verification development for the trading-feed client
(`src/unnamed/part_000`, with `src/unnamed/part_001` an earlier revision of
the same component). The embedding models:

* JavaScript values reaching `handleTradeData` (objects decoded by
  `JSON.parse`, plus strings/numbers/booleans/null/undefined);
* `JSON.parse` itself (a fuel-based JSON text parser, RFC 8259 grammar);
* `handleTradeData` (message normalisation and validation, and the
  bounded trade-buffer update `[trade, ...prev.slice(0, 99)]`);
* the connection negotiation state machine of `connectSmart`,
  `trySocketIO` and `tryWebSocket`.
-/

/-- JavaScript runtime values as they appear in `handleTradeData`:
the result of `JSON.parse` plus the `undefined` produced by accessing a
missing property. -/
inductive JsValue where
  | null
  | undefined
  | bool (b : Bool)
  | num (q : ℚ)
  | str (s : String)
  | arr (elems : List JsValue)
  | obj (fields : List (String × JsValue))

/-- JavaScript truthiness for the values of `JsValue`:
`undefined`, `null`, `false`, `0` and `""` are falsy; every object and
array is truthy. (`NaN` does not arise: numbers are exact rationals.) -/
def truthy : JsValue → Bool
  | .null => false
  | .undefined => false
  | .bool b => b
  | .num q => q != 0
  | .str s => !s.isEmpty
  | .arr _ => true
  | .obj _ => true

/-- JavaScript `a || b`: the left operand when truthy, otherwise the right. -/
def jsOr (a b : JsValue) : JsValue := if truthy a then a else b

/-- Models `x !== undefined` (used in the expected-format check). -/
def isUndefined : JsValue → Bool
  | .undefined => true
  | _ => false

/-- Last binding for a key in an association list; `JSON.parse` keeps the
last occurrence of a duplicated object key, so property lookup returns the
last binding. -/
def lastAssoc (fs : List (String × JsValue)) (k : String) : Option JsValue :=
  fs.foldl (fun acc p => if p.1 == k then some p.2 else acc) none

/-- JavaScript property access `v.k` for the values flowing through
`handleTradeData`: a field of an object, and `undefined` on every
non-object (property access on `null`/`undefined` throws instead; the
caller handles that case separately). -/
def getField (v : JsValue) (k : String) : JsValue :=
  match v with
  | .obj fs => (lastAssoc fs k).getD .undefined
  | _ => .undefined

mutual

/-- JavaScript string coercion (template-literal interpolation). The
numeric case prints integers the way JavaScript does; non-integral
rationals are printed in Lean's `a/b` notation (an approximation -- the
program only ever interpolates strings here). -/
def jsToString : JsValue → String
  | .null => "null"
  | .undefined => "undefined"
  | .bool b => if b then "true" else "false"
  | .num q => if q.den = 1 then toString q.num else toString q
  | .str s => s
  | .arr xs => jsToStringList xs
  | .obj _ => "[object Object]"

/-- Array elements joined with `","`, as JavaScript `Array.prototype.toString`. -/
def jsToStringList : List JsValue → String
  | [] => ""
  | [x] => jsToString x
  | x :: xs => jsToString x ++ "," ++ jsToStringList xs

end

/-- Numeric payload of a value, when it is a number. -/
def jsNum : JsValue → Option ℚ
  | .num q => some q
  | _ => none

/-! ## JSON.parse

A fuel-based parser for JSON text (RFC 8259), modelling `JSON.parse` as
invoked on raw WebSocket message strings: on any syntax error the result
is `none` (the thrown `SyntaxError` that `handleTradeData` catches). -/

/-- Skip JSON insignificant whitespace (space, tab, line feed, carriage return). -/
def skipWs : List Char → List Char
  | c :: cs =>
    if c = ' ' ∨ c = '\t' ∨ c = '\n' ∨ c = '\r' then skipWs cs else c :: cs
  | [] => []

/-- Longest prefix of decimal digits, with the rest of the input. -/
def takeDigits : List Char → List Char × List Char
  | c :: cs =>
    if c.isDigit then
      let (ds, r) := takeDigits cs
      (c :: ds, r)
    else ([], c :: cs)
  | [] => ([], [])

/-- Value of a digit string. -/
def digitsToNat (ds : List Char) : Nat :=
  ds.foldl (fun n c => 10 * n + (c.toNat - '0'.toNat)) 0

/-- Hexadecimal digit value, for string escapes. -/
def hexDigit (c : Char) : Option Nat :=
  if c.isDigit then some (c.toNat - '0'.toNat)
  else if 'a' ≤ c ∧ c ≤ 'f' then some (c.toNat - 'a'.toNat + 10)
  else if 'A' ≤ c ∧ c ≤ 'F' then some (c.toNat - 'A'.toNat + 10)
  else none

/-- Single-character JSON string escapes. -/
def escChar (c : Char) : Option Char :=
  if c = '"' then some '"'
  else if c = '\\' then some '\\'
  else if c = '/' then some '/'
  else if c = 'b' then some (Char.ofNat 8)
  else if c = 'f' then some (Char.ofNat 12)
  else if c = 'n' then some '\n'
  else if c = 'r' then some '\r'
  else if c = 't' then some '\t'
  else none

/-- Parse the body of a JSON string after the opening quote, returning the
decoded characters and the input after the closing quote. Raw control
characters are a syntax error. -/
def parseStringAux : Nat → List Char → Option (List Char × List Char)
  | 0, _ => none
  | _ + 1, [] => none
  | fuel + 1, c :: r =>
    if c = '"' then some ([], r)
    else if c = '\\' then
      match r with
      | [] => none
      | e :: r2 =>
        if e = 'u' then
          match r2 with
          | h1 :: h2 :: h3 :: h4 :: r3 =>
            match hexDigit h1, hexDigit h2, hexDigit h3, hexDigit h4 with
            | some a, some b, some c2, some d2 =>
              (parseStringAux fuel r3).map
                (fun p => (Char.ofNat (((a * 16 + b) * 16 + c2) * 16 + d2) :: p.1, p.2))
            | _, _, _, _ => none
          | _ => none
        else
          match escChar e with
          | none => none
          | some ec => (parseStringAux fuel r2).map (fun p => (ec :: p.1, p.2))
    else if c.toNat < 32 then none
    else (parseStringAux fuel r).map (fun p => (c :: p.1, p.2))

/-- Assemble a rational from the parts of a JSON number literal
(sign, integer part, fraction digits, exponent sign and exponent):
the value `± (ip + 0.fds) * 10 ^ (± ed)` as an exact rational. -/
def ratOfParts (neg : Bool) (ip : Nat) (fds : List Char) (eneg : Bool) (ed : Nat) : ℚ :=
  let mant : Nat := ip * 10 ^ fds.length + digitsToNat fds
  let n : Int := if neg then -(mant : Int) else (mant : Int)
  if eneg then mkRat n (10 ^ (fds.length + ed))
  else mkRat (n * 10 ^ ed) (10 ^ fds.length)

/-- Optional fraction part: a `'.'` must be followed by at least one digit. -/
def parseFrac : List Char → Option (List Char × List Char)
  | '.' :: r =>
    match takeDigits r with
    | ([], _) => none
    | (ds, r2) => some (ds, r2)
  | cs => some ([], cs)

/-- Optional exponent part: `e`/`E`, optional sign, at least one digit.
Returns (exponent is negative, exponent digits value, rest). -/
def parseExp : List Char → Option (Bool × Nat × List Char)
  | c :: r =>
    if c = 'e' ∨ c = 'E' then
      let (en, r1) : Bool × List Char :=
        match r with
        | '+' :: rr => (false, rr)
        | '-' :: rr => (true, rr)
        | _ => (false, r)
      match takeDigits r1 with
      | ([], _) => none
      | (ds, r2) => some (en, digitsToNat ds, r2)
    else some (false, 0, c :: r)
  | [] => some (false, 0, [])

/-- Parse a JSON number literal (JSON forbids a leading zero followed by
more digits, and requires at least one integer digit). -/
def parseNumber (cs : List Char) : Option (ℚ × List Char) :=
  let (neg, cs1) : Bool × List Char :=
    match cs with
    | '-' :: r => (true, r)
    | _ => (false, cs)
  match takeDigits cs1 with
  | ([], _) => none
  | (d :: ds, r1) =>
    if d = '0' ∧ ds ≠ [] then none
    else
      match parseFrac r1 with
      | none => none
      | some (fds, r2) =>
        match parseExp r2 with
        | none => none
        | some (en, ed, r3) => some (ratOfParts neg (digitsToNat (d :: ds)) fds en ed, r3)

mutual

/-- Parse one JSON value, consuming leading whitespace. -/
def parseValue : Nat → List Char → Option (JsValue × List Char)
  | 0, _ => none
  | fuel + 1, cs =>
    match skipWs cs with
    | [] => none
    | c :: r =>
      if c = 'n' then
        match r with
        | 'u' :: 'l' :: 'l' :: r2 => some (.null, r2)
        | _ => none
      else if c = 't' then
        match r with
        | 'r' :: 'u' :: 'e' :: r2 => some (.bool true, r2)
        | _ => none
      else if c = 'f' then
        match r with
        | 'a' :: 'l' :: 's' :: 'e' :: r2 => some (.bool false, r2)
        | _ => none
      else if c = '"' then
        (parseStringAux (fuel + 1) r).map (fun p => (.str (String.mk p.1), p.2))
      else if c = '[' then
        match skipWs r with
        | ']' :: r2 => some (.arr [], r2)
        | _ => (parseElems fuel r).map (fun p => (.arr p.1, p.2))
      else if c = '{' then
        match skipWs r with
        | '}' :: r2 => some (.obj [], r2)
        | _ => (parseMembers fuel r).map (fun p => (.obj p.1, p.2))
      else (parseNumber (c :: r)).map (fun p => (.num p.1, p.2))

/-- Parse the non-empty element list of a JSON array (after `'['`). -/
def parseElems : Nat → List Char → Option (List JsValue × List Char)
  | 0, _ => none
  | fuel + 1, cs =>
    match parseValue fuel cs with
    | none => none
    | some (v, r) =>
      match skipWs r with
      | ',' :: r2 => (parseElems fuel r2).map (fun p => (v :: p.1, p.2))
      | ']' :: r2 => some ([v], r2)
      | _ => none

/-- Parse the non-empty member list of a JSON object (after `'{'`). -/
def parseMembers : Nat → List Char → Option (List (String × JsValue) × List Char)
  | 0, _ => none
  | fuel + 1, cs =>
    match skipWs cs with
    | '"' :: r =>
      match parseStringAux (fuel + 1) r with
      | none => none
      | some (k, r1) =>
        match skipWs r1 with
        | ':' :: r2 =>
          match parseValue fuel r2 with
          | none => none
          | some (v, r3) =>
            match skipWs r3 with
            | ',' :: r4 => (parseMembers fuel r4).map (fun p => ((String.mk k, v) :: p.1, p.2))
            | '}' :: r4 => some ([(String.mk k, v)], r4)
            | _ => none
        | _ => none
    | _ => none

end

/-- `JSON.parse` on a message string: one JSON value followed only by
whitespace; anything else (including trailing characters, as with a
Socket.IO raw frame such as a numeric envelope prefix before the array)
is a syntax error, modelled as `none`. -/
def parseJson (s : String) : Option JsValue :=
  match parseValue (2 * s.length + 2) s.toList with
  | some (v, rest) =>
    match skipWs rest with
    | [] => some v
    | _ => none
  | none => none

/-! ## The message normalizer (`handleTradeData`)

From `src/unnamed/part_000` lines 155-208. A trade is a record of the
seven fields the handler assigns; JavaScript does not enforce the field
types of the `Trade` annotation, so every field is a runtime value. -/

/-- The `Trade` record built by `handleTradeData`. -/
structure Trade where
  id : JsValue
  timestamp : JsValue
  symbol : JsValue
  price : JsValue
  size : JsValue
  side : JsValue
  exchange : JsValue

/-- The expected-format check:
`parsedData.id && parsedData.timestamp && parsedData.symbol && parsedData.price !== undefined`. -/
def expectedFormat (p : JsValue) : Bool :=
  truthy (getField p "id") && truthy (getField p "timestamp") &&
    truthy (getField p "symbol") && !(isUndefined (getField p "price"))

/-- The field mapping of `handleTradeData`: the expected-format branch
copies `id`/`timestamp`/`symbol`/`price` and defaults `size`/`side`/
`exchange`; the fallback branch maps alternate (pump.fun-style) fields.
`freshId` stands for the `crypto.randomUUID()` result and `now` for
`Date.now()` at this invocation. -/
def mapTrade (freshId : String) (now : ℚ) (p : JsValue) : Trade :=
  if expectedFormat p then
    { id := getField p "id"
      timestamp := getField p "timestamp"
      symbol := getField p "symbol"
      price := getField p "price"
      size := jsOr (getField p "size") (.num 0)
      side := jsOr (getField p "side") (.str "buy")
      exchange := jsOr (getField p "exchange") (.str "unknown") }
  else
    { id := jsOr (getField p "signature") (jsOr (getField p "id") (.str freshId))
      timestamp := jsOr (getField p "timestamp") (.num now)
      symbol := jsOr (getField p "symbol")
        (.str (jsToString (jsOr (getField p "name") (.str "UNK")) ++ "/" ++
               jsToString (jsOr (getField p "symbol") (.str "USD"))))
      price := jsOr (getField p "price") (jsOr (getField p "sol_amount") (.num 0))
      size := jsOr (getField p "size") (jsOr (getField p "token_amount") (.num 0))
      side := jsOr (getField p "side")
        (if truthy (getField p "is_buy") then .str "buy" else .str "sell")
      exchange := jsOr (getField p "exchange") (.str "unknown") }

/-- The string-decoding step of `handleTradeData`: a string message is
given to `JSON.parse` (a parse failure means the message is skipped),
every other value is used as-is. -/
def decodeMessage : JsValue → Option JsValue
  | .str s => parseJson s
  | v => some v

/-- The essential-field validation of `handleTradeData`:
`if (trade.id && trade.timestamp && trade.symbol)` -- only then is the
trade pushed. -/
def validateTrade (t : Trade) : Option Trade :=
  if truthy t.id && truthy t.timestamp && truthy t.symbol then some t else none

/-- `handleTradeData` as a normalizer: `some trade` when the message is
accepted and pushed, `none` when it is discarded. A string message is
first given to `JSON.parse`; a parse failure returns without effect. A
parsed `null` (or an `undefined` input) makes the property accesses of
the mapping step throw, and the surrounding try/catch swallows the
error: also a discard. Otherwise the mapped trade is kept only when it
passes `validateTrade`. -/
def handleTradeData (freshId : String) (now : ℚ) (tradeData : JsValue) : Option Trade :=
  match decodeMessage tradeData with
  | none => none
  | some .null => none
  | some .undefined => none
  | some p => validateTrade (mapTrade freshId now p)

/-- User-visible notifications emitted by one `handleTradeData` call. -/
inductive Toast where
  | error (msg : String)
  | success (msg : String)
  | info (msg : String)
deriving DecidableEq

/-- `handleTradeData` emits exactly one toast per invocation: the
unconditional informational toast at its top. No branch of the handler
(in particular not the JSON-parse failure branch or the catch block)
surfaces an error toast. -/
def handleTradeDataToasts (_ : JsValue) : List Toast :=
  [.info "New message received - check console logs"]

/-- The buffer update `[trade, ...prevTrades.slice(0, 99)]`. -/
def pushTrade (t : Trade) (prevTrades : List Trade) : List Trade :=
  t :: prevTrades.take 99

/-- One incoming message applied to the trade buffer: push on accept,
leave the buffer untouched on discard. -/
def processMessage (freshId : String) (now : ℚ) (raw : JsValue) (buf : List Trade) :
    List Trade :=
  match handleTradeData freshId now raw with
  | some t => pushTrade t buf
  | none => buf

/-! ## The connection negotiator (`connectSmart` and friends)

From `src/unnamed/part_000` lines 211-313. -/

/-- The `connectionStatus` React state. -/
inductive ConnStatus where
  | disconnected
  | connecting
  | connected
  | error
deriving DecidableEq

/-- The `connectionType` React state values. -/
inductive TransportType where
  | sio
  | websocket
deriving DecidableEq

/-- The component state touched by the negotiator: connection status, the
two transport handles (`socket`, `webSocket` -- modelled as presence
flags), the recorded transport type, and the trade buffer. -/
structure ConnState where
  status : ConnStatus
  socket : Bool
  webSocket : Bool
  connectionType : Option TransportType
  trades : List Trade

/-- The initial component state (`useState` initial values). -/
def initState : ConnState :=
  { status := .disconnected
    socket := false
    webSocket := false
    connectionType := none
    trades := [] }

/-- A transport attempt performed by `connectSmart`. -/
inductive TransportAttempt where
  | sioAttempt
  | webSocketAttempt
deriving DecidableEq

/-- Everything one `connectSmart` invocation produces: the final state,
the sequence of `setConnectionStatus` calls in order, the toasts shown,
and which transport attempts were started. -/
structure ConnectOutcome where
  state : ConnState
  statusTrace : List ConnStatus
  toasts : List Toast
  attempts : List TransportAttempt

/-- JavaScript `String.prototype.trim` whitespace (the characters the
program can realistically meet; `\x0b`/`\x0c` included, as in JS). -/
def isJsWs (c : Char) : Bool :=
  c = ' ' ∨ c = '\t' ∨ c = '\n' ∨ c = '\r' ∨ c = Char.ofNat 11 ∨ c = Char.ofNat 12

/-- JavaScript `url.trim()`. -/
def jsTrim (s : String) : String :=
  String.mk (((s.toList.dropWhile isJsWs).reverse.dropWhile isJsWs).reverse)

/-- `connectSmart` for one invocation, with the outcome of each transport
attempt supplied as a parameter (`Except.error msg` is the rejection of
`trySocketIO` / `tryWebSocket`, e.g. the 5000 ms timeout error). The
guard `!wsUrl.trim()` returns early with only an error toast; otherwise
the status is set to `connecting`, Socket.IO is attempted first, the raw
WebSocket second, and when both fail the status becomes `error` with the
fixed toast `"Failed to connect via Socket.IO or WebSocket"`. -/
def connectSmart (url : String) (sio : Except String Unit) (ws : Except String Unit)
    (s : ConnState) : ConnectOutcome :=
  if jsTrim url = "" then
    { state := s
      statusTrace := []
      toasts := [.error "Please enter a WebSocket URL"]
      attempts := [] }
  else
    match sio with
    | .ok _ =>
      { state := { s with status := .connected, socket := true,
                          connectionType := some .sio }
        statusTrace := [.connecting, .connected]
        toasts := [.success "Connected via Socket.IO"]
        attempts := [.sioAttempt] }
    | .error _ =>
      match ws with
      | .ok _ =>
        { state := { s with status := .connected, webSocket := true,
                            connectionType := some .websocket }
          statusTrace := [.connecting, .connected]
          toasts := [.success "Connected via WebSocket"]
          attempts := [.sioAttempt, .webSocketAttempt] }
      | .error _ =>
        { state := { s with status := .error }
          statusTrace := [.connecting, .error]
          toasts := [.error "Failed to connect via Socket.IO or WebSocket"]
          attempts := [.sioAttempt, .webSocketAttempt] }

/-- A server-initiated transport closure delivered to the client.
`tryWebSocket` installs an `onclose` handler that sets the status to
`disconnected` and clears the WebSocket handle and connection type.
`trySocketIO` registers handlers only for `connect`, `connect_error` and
the four trade events -- no `disconnect` handler -- so a server-side
closure of a Socket.IO transport triggers no state update at all. -/
def serverClose (s : ConnState) : ConnState :=
  if s.webSocket then
    { s with status := .disconnected, webSocket := false, connectionType := none }
  else s

/-- Substring search used to state facts about surfaced error messages. -/
def seqStartsWith : List Char → List Char → Bool
  | [], _ => true
  | _ :: _, [] => false
  | a :: as, b :: bs => a == b && seqStartsWith as bs

/-- Whether the second character sequence occurs inside the first. -/
def seqContains : List Char → List Char → Bool
  | [], needle => needle.isEmpty
  | hay@(_ :: rest), needle => seqStartsWith needle hay || seqContains rest needle

/-- Whether `needle` occurs as a substring of `hay`. -/
def strContains (hay needle : String) : Bool :=
  seqContains hay.toList needle.toList

/-! ## Concrete payloads used by the claims -/

/-- The raw Socket.IO frame of the C1 scenario: a 2-character numeric
envelope prefix, then a JSON array wrapping the payload. -/
def c1frame : String :=
  "42[\"tradeCreated\",\x7b\"id\":\"x\",\"timestamp\":1,\"symbol\":\"BTC/USD\",\"price\":1,\"size\":1,\"side\":\"buy\",\"exchange\":\"E\"\x7d]"

/-- The payload wrapped inside `c1frame`, as its own JSON text. -/
def c1payload : String :=
  "\x7b\"id\":\"x\",\"timestamp\":1,\"symbol\":\"BTC/USD\",\"price\":1,\"size\":1,\"side\":\"buy\",\"exchange\":\"E\"\x7d"

/-- The Trade the C1 scenario expects. -/
def tradeX : Trade :=
  { id := .str "x", timestamp := .num 1, symbol := .str "BTC/USD",
    price := .num 1, size := .num 1, side := .str "buy", exchange := .str "E" }

/-- A payload with identifier, timestamp and symbol but no price, side or
buy-indicator: it takes the fallback mapping branch. -/
def fsNoSide : List (String × JsValue) :=
  [("id", .str "x"), ("timestamp", .num 1), ("symbol", .str "S")]

/-- The trade `handleTradeData` produces for `fsNoSide`. -/
def trNoSide : Trade :=
  { id := .str "x", timestamp := .num 1, symbol := .str "S",
    price := .num 0, size := .num 0, side := .str "sell", exchange := .str "unknown" }

/-- An expected-format payload whose `is_buy` is `false` and that has no
explicit `side`. -/
def fsIsBuyFalse : List (String × JsValue) :=
  [("id", .str "x"), ("timestamp", .num 1), ("symbol", .str "S"),
   ("price", .num 1), ("is_buy", .bool false)]

/-- A payload carrying both an `id` and a `signature`, without a price
field, so it takes the fallback mapping branch. -/
def fsIdAndSig : List (String × JsValue) :=
  [("id", .str "a"), ("signature", .str "b"), ("timestamp", .num 1), ("symbol", .str "S")]

/-- The trade `handleTradeData` produces for `fsIdAndSig`. -/
def trIdAndSig : Trade :=
  { id := .str "b", timestamp := .num 1, symbol := .str "S",
    price := .num 0, size := .num 0, side := .str "sell", exchange := .str "unknown" }

/-- An expected-format payload with a negative price. -/
def fsNegPrice : List (String × JsValue) :=
  [("id", .str "x"), ("timestamp", .num 1), ("symbol", .str "S"), ("price", .num (-5))]

/-- The trade `handleTradeData` produces for `fsNegPrice`. -/
def trNegPrice : Trade :=
  { id := .str "x", timestamp := .num 1, symbol := .str "S",
    price := .num (-5), size := .num 0, side := .str "buy", exchange := .str "unknown" }

/-- A payload with neither a symbol nor a name. -/
def fsNoSymbol : List (String × JsValue) :=
  [("id", .str "x"), ("timestamp", .num 1)]

/-- The trade `handleTradeData` produces for `fsNoSymbol`. -/
def trNoSymbol : Trade :=
  { id := .str "x", timestamp := .num 1, symbol := .str "UNK/USD",
    price := .num 0, size := .num 0, side := .str "sell", exchange := .str "unknown" }

/-- A sample well-formed trade, for buffer statements. -/
def tr0 : Trade :=
  { id := .str "a", timestamp := .num 1, symbol := .str "S",
    price := .num 2, size := .num 3, side := .str "buy", exchange := .str "E" }

/-- Connected via the raw WebSocket transport. -/
def stateWsConnected : ConnState :=
  { status := .connected, socket := false, webSocket := true,
    connectionType := some .websocket, trades := [] }

/-- Connected via the Socket.IO transport. -/
def stateSioConnected : ConnState :=
  { status := .connected, socket := true, webSocket := false,
    connectionType := some .sio, trades := [] }

/-! ## Shared inversion lemmas -/

/-- Inverting `validateTrade`: an accepted trade is the mapped trade and
passes the three truthiness checks. -/
theorem validateTrade_some (t0 t : Trade) (h : validateTrade t0 = some t) :
    t0 = t ∧ (truthy t.id && truthy t.timestamp && truthy t.symbol) = true := by
  unfold validateTrade at h
  split at h
  · next hc =>
    injection h with ht
    subst ht
    exact ⟨rfl, hc⟩
  · cases h

/-- Inverting `handleTradeData` on a structured (object) payload. -/
theorem handleTradeData_obj_some (f : String) (n : ℚ) (fs : List (String × JsValue))
    (t : Trade) (h : handleTradeData f n (JsValue.obj fs) = some t) :
    mapTrade f n (JsValue.obj fs) = t := by
  unfold handleTradeData decodeMessage at h
  exact (validateTrade_some _ _ h).1

/-! ## Claim C1 -/

/-- Claim C1 as stated is false at its own scenario input: `handleTradeData`
performs no prefix-stripping, so the raw Socket.IO frame string fails
`JSON.parse` and is discarded rather than normalized to the Trade. -/
theorem c1_counterexample : handleTradeData "u" 7 (.str c1frame) = none := rfl

/-- Claim C1 (amended): `normalize` has no prefix-stripping step, so the
raw-frame string input is discarded (its 2-character numeric envelope
prefix makes the whole string invalid JSON); the payload wrapped inside
the frame, decoded on its own, does yield the stated Trade
(id "x", timestamp 1, symbol "BTC/USD", price 1, size 1, side "buy",
exchange "E"). -/
theorem c1_amended_thm :
    handleTradeData "u" 7 (.str c1frame) = none ∧
    handleTradeData "u" 7 (.str c1payload) = some tradeX :=
  ⟨rfl, rfl⟩

/-! ## Claim C2 -/

/-- Claim C2 as stated is false: a fallback-branch payload with neither a
`side` nor an `is_buy` field is normalized with side "sell", not the
claimed default "buy"; and an expected-format payload with `is_buy =
false` and no `side` gets side "buy", not the "sell" the buy-indicator
derivation would give. -/
theorem c2_counterexample :
    (handleTradeData "u" 1 (.obj fsNoSide)).map (fun t => jsToString t.side) = some "sell" ∧
    (handleTradeData "u" 1 (.obj fsIsBuyFalse)).map (fun t => jsToString t.side) = some "buy" ∧
    "sell" ≠ "buy" :=
  ⟨rfl, rfl, by decide⟩

/-- Claim C2 (amended): for a normalized object payload with no explicit
side field, the side is "buy" in the expected-format branch (the
buy-indicator is ignored there), and otherwise is derived from the
boolean buy-indicator -- "buy" when `is_buy` is truthy, "sell" when it is
falsy or absent. In particular the default when both fields are absent is
"sell" in the fallback branch. -/
theorem c2_amended_thm (f : String) (n : ℚ) (fs : List (String × JsValue))
    (hside : getField (JsValue.obj fs) "side" = JsValue.undefined) (t : Trade)
    (h : handleTradeData f n (JsValue.obj fs) = some t) :
    t.side = (if expectedFormat (JsValue.obj fs) then JsValue.str "buy"
      else if truthy (getField (JsValue.obj fs) "is_buy") then JsValue.str "buy"
      else JsValue.str "sell") := by
  rw [← handleTradeData_obj_some f n fs t h]
  unfold mapTrade
  by_cases hb : expectedFormat (JsValue.obj fs)
  · simp [hb, jsOr, hside, truthy]
  · simp [hb, jsOr, hside, truthy]

/-- Witness for `c2_amended_thm` at the concrete payload `fsNoSide`. -/
theorem c2_amended_witness :
    trNoSide.side = (if expectedFormat (JsValue.obj fsNoSide) then JsValue.str "buy"
      else if truthy (getField (JsValue.obj fsNoSide) "is_buy") then JsValue.str "buy"
      else JsValue.str "sell") :=
  c2_amended_thm "u" 1 fsNoSide rfl trNoSide rfl

/-! ## Claim C3 -/

/-- Claim C3 as stated is false: a payload carrying both an `id` ("a")
and a `signature` ("b") that takes the fallback branch (here: no price
field) is normalized with identifier "b" -- the signature field, not the
id field. -/
theorem c3_counterexample :
    (handleTradeData "u" 1 (.obj fsIdAndSig)).map (fun t => jsToString t.id) = some "b" ∧
    "b" ≠ "a" :=
  ⟨rfl, by decide⟩

/-- Claim C3 (amended): the normalized identifier is the id field in the
expected-format branch; in the fallback branch the signature field takes
precedence over the id field -- there a truthy signature always wins, the
id field is used only when the signature is absent or falsy, and the
freshly generated string is used only when both are absent or falsy. -/
theorem c3_amended_thm (f : String) (n : ℚ) (fs : List (String × JsValue)) (t : Trade)
    (h : handleTradeData f n (JsValue.obj fs) = some t) :
    t.id = (if expectedFormat (JsValue.obj fs) then getField (JsValue.obj fs) "id"
      else if truthy (getField (JsValue.obj fs) "signature") then
        getField (JsValue.obj fs) "signature"
      else if truthy (getField (JsValue.obj fs) "id") then getField (JsValue.obj fs) "id"
      else JsValue.str f) := by
  rw [← handleTradeData_obj_some f n fs t h]
  unfold mapTrade
  by_cases hb : expectedFormat (JsValue.obj fs)
  · simp [hb]
  · by_cases hs : truthy (getField (JsValue.obj fs) "signature")
    · simp [hb, hs, jsOr]
    · by_cases hi : truthy (getField (JsValue.obj fs) "id")
      · simp [hb, hs, hi, jsOr]
      · simp [hb, hs, hi, jsOr]

/-- Witness for `c3_amended_thm` at the concrete payload `fsIdAndSig`. -/
theorem c3_amended_witness :
    trIdAndSig.id = (if expectedFormat (JsValue.obj fsIdAndSig) then
        getField (JsValue.obj fsIdAndSig) "id"
      else if truthy (getField (JsValue.obj fsIdAndSig) "signature") then
        getField (JsValue.obj fsIdAndSig) "signature"
      else if truthy (getField (JsValue.obj fsIdAndSig) "id") then
        getField (JsValue.obj fsIdAndSig) "id"
      else JsValue.str "u") :=
  c3_amended_thm "u" 1 fsIdAndSig trIdAndSig rfl

/-! ## Claim C4 -/

/-- Claim C4 as stated is false: an expected-format payload with price -5
is accepted (not discarded), and its Trade carries the negative price
verbatim. -/
theorem c4_counterexample :
    (handleTradeData "u" 1 (.obj fsNegPrice)).bind (fun t => jsNum t.price) = some (-5) ∧
    (-5 : ℚ) < 0 :=
  ⟨rfl, by norm_num⟩

/-- Claim C4 (amended): the only validation `handleTradeData` performs on
an accepted Trade is truthiness of identifier, timestamp and symbol;
price, size and side are copied from the source payload whenever truthy
(price whenever defined, in the expected-format branch), so accepted
trades can carry negative numbers or arbitrary side values. -/
theorem c4_amended_thm (f : String) (n : ℚ) (raw : JsValue) (t : Trade)
    (h : handleTradeData f n raw = some t) :
    truthy t.id = true ∧ truthy t.timestamp = true ∧ truthy t.symbol = true := by
  unfold handleTradeData at h
  cases hd : decodeMessage raw with
  | none => rw [hd] at h; cases h
  | some p =>
    rw [hd] at h
    cases p with
    | null => cases h
    | undefined => cases h
    | bool b =>
      have hc := (validateTrade_some _ _ h).2
      simp only [Bool.and_eq_true] at hc
      exact ⟨hc.1.1, hc.1.2, hc.2⟩
    | num q =>
      have hc := (validateTrade_some _ _ h).2
      simp only [Bool.and_eq_true] at hc
      exact ⟨hc.1.1, hc.1.2, hc.2⟩
    | str s =>
      have hc := (validateTrade_some _ _ h).2
      simp only [Bool.and_eq_true] at hc
      exact ⟨hc.1.1, hc.1.2, hc.2⟩
    | arr xs =>
      have hc := (validateTrade_some _ _ h).2
      simp only [Bool.and_eq_true] at hc
      exact ⟨hc.1.1, hc.1.2, hc.2⟩
    | obj fs =>
      have hc := (validateTrade_some _ _ h).2
      simp only [Bool.and_eq_true] at hc
      exact ⟨hc.1.1, hc.1.2, hc.2⟩

/-- Witness for `c4_amended_thm` at the concrete payload `fsNegPrice`. -/
theorem c4_amended_witness :
    truthy trNegPrice.id = true ∧ truthy trNegPrice.timestamp = true ∧
    truthy trNegPrice.symbol = true :=
  c4_amended_thm "u" 1 (.obj fsNegPrice) trNegPrice rfl

/-! ## Claim C5 -/

/-- Claim C5 as stated is false in its message part: when both attempts
fail with the two timeout errors, the state does become `error`, but the
single surfaced message is the fixed string "Failed to connect via
Socket.IO or WebSocket", which contains neither underlying attempt
failure message. -/
theorem c5_counterexample :
    (connectSmart "ws://x" (.error "Socket.IO connection timeout")
      (.error "WebSocket connection timeout") initState).toasts =
      [Toast.error "Failed to connect via Socket.IO or WebSocket"] ∧
    (connectSmart "ws://x" (.error "Socket.IO connection timeout")
      (.error "WebSocket connection timeout") initState).state.status = ConnStatus.error ∧
    strContains "Failed to connect via Socket.IO or WebSocket"
      "Socket.IO connection timeout" = false ∧
    strContains "Failed to connect via Socket.IO or WebSocket"
      "WebSocket connection timeout" = false :=
  ⟨rfl, rfl, rfl, rfl⟩

/-- Claim C5 (amended): when both connection attempts fail (for any pair
of underlying failure messages), `connectSmart` transitions the state to
`error` and surfaces exactly one user-visible error toast -- the fixed
message "Failed to connect via Socket.IO or WebSocket", which names both
transports but does not incorporate the underlying attempt failure
messages. -/
theorem c5_amended_thm (url e1 e2 : String) (s : ConnState) (h : jsTrim url ≠ "") :
    connectSmart url (.error e1) (.error e2) s =
      { state := { s with status := .error }
        statusTrace := [.connecting, .error]
        toasts := [.error "Failed to connect via Socket.IO or WebSocket"]
        attempts := [.sioAttempt, .webSocketAttempt] } := by
  simp [connectSmart, h]

/-- Witness for `c5_amended_thm` at a concrete URL and failure messages. -/
theorem c5_amended_witness :
    connectSmart "ws://x" (.error "Socket.IO connection timeout")
      (.error "WebSocket connection timeout") initState =
      { state := { initState with status := .error }
        statusTrace := [.connecting, .error]
        toasts := [.error "Failed to connect via Socket.IO or WebSocket"]
        attempts := [.sioAttempt, .webSocketAttempt] } :=
  c5_amended_thm "ws://x" "Socket.IO connection timeout" "WebSocket connection timeout"
    initState (by decide)

/-! ## Claim C6 -/

/-- Claim C6 as stated is false for the Socket.IO transport: with the
Socket.IO handle active, a server-initiated closure leaves the status
`connected`, the handle set, and the transport type recorded -- no
`disconnect` handler is ever registered by `trySocketIO`. -/
theorem c6_counterexample :
    (serverClose stateSioConnected).status = ConnStatus.connected ∧
    (serverClose stateSioConnected).socket = true ∧
    (serverClose stateSioConnected).connectionType = some TransportType.sio ∧
    ConnStatus.connected ≠ ConnStatus.disconnected :=
  ⟨rfl, rfl, rfl, by decide⟩

/-- Claim C6 (amended): a server-initiated closure drives the
`disconnected` transition and clears the handle and transport type only
when the raw WebSocket transport is active (its `onclose` handler); when
the WebSocket handle is absent -- in particular when the Socket.IO
transport is the active one -- the closure triggers no state change at
all. -/
theorem c6_amended_thm (s : ConnState) :
    (s.webSocket = true →
      serverClose s =
        { s with status := .disconnected, webSocket := false, connectionType := none }) ∧
    (s.webSocket = false → serverClose s = s) := by
  constructor <;> intro h <;> simp [serverClose, h]

/-- Witness for `c6_amended_thm` at the two concrete connected states. -/
theorem c6_amended_witness :
    serverClose stateWsConnected =
      { stateWsConnected with status := .disconnected, webSocket := false,
                              connectionType := none } ∧
    serverClose stateSioConnected = stateSioConnected :=
  ⟨(c6_amended_thm stateWsConnected).1 rfl, (c6_amended_thm stateSioConnected).2 rfl⟩

/-! ## Claim C7 -/

/-- Claim C7 as stated is false: with neither a symbol nor a name in the
payload, the normalized symbol is the composed string "UNK/USD", not the
literal "UNK". -/
theorem c7_counterexample :
    (handleTradeData "u" 1 (.obj fsNoSymbol)).map (fun t => jsToString t.symbol) =
      some "UNK/USD" ∧
    "UNK/USD" ≠ "UNK" :=
  ⟨rfl, by decide⟩

/-- Claim C7 (amended): for a normalized object payload with no usable
(truthy) explicit symbol field, the Trade symbol is the composed
template `(name || 'UNK') + '/' + (symbol || 'USD')` -- the composed
name/symbol-pair fallback when a name is present, and the composed
placeholder "UNK/USD" when neither a symbol nor a name is present, never
the bare literal "UNK". -/
theorem c7_amended_thm (f : String) (n : ℚ) (fs : List (String × JsValue)) (t : Trade)
    (hsym : truthy (getField (JsValue.obj fs) "symbol") = false)
    (h : handleTradeData f n (JsValue.obj fs) = some t) :
    t.symbol = JsValue.str
      (jsToString (jsOr (getField (JsValue.obj fs) "name") (JsValue.str "UNK")) ++ "/" ++
       jsToString (jsOr (getField (JsValue.obj fs) "symbol") (JsValue.str "USD"))) := by
  rw [← handleTradeData_obj_some f n fs t h]
  unfold mapTrade
  have hb : expectedFormat (JsValue.obj fs) = false := by
    simp [expectedFormat, hsym]
  simp [hb, jsOr, hsym]

/-- Witness for `c7_amended_thm` at the concrete payload `fsNoSymbol`. -/
theorem c7_amended_witness :
    trNoSymbol.symbol = JsValue.str
      (jsToString (jsOr (getField (JsValue.obj fsNoSymbol) "name") (JsValue.str "UNK")) ++ "/" ++
       jsToString (jsOr (getField (JsValue.obj fsNoSymbol) "symbol") (JsValue.str "USD"))) :=
  c7_amended_thm "u" 1 fsNoSymbol trNoSymbol rfl rfl

/-! ## Claim C8 -/

/-- Claim C8 (confirmed): pushing onto a buffer of exactly 100 trades
yields exactly 100 trades, with the new trade first and the former last
entry dropped while the rest keep their order (the result is the new
trade consed onto the old buffer minus its last element); and a push
never grows a buffer within capacity beyond 100 entries. -/
theorem c8_push_bounded (t : Trade) (buf : List Trade) :
    (buf.length = 100 →
      pushTrade t buf = t :: buf.dropLast ∧
      (pushTrade t buf).length = 100 ∧
      (pushTrade t buf).head? = some t) ∧
    (buf.length ≤ 100 → (pushTrade t buf).length ≤ 100) := by
  constructor
  · intro h
    refine ⟨?_, ?_, rfl⟩
    · unfold pushTrade
      rw [List.dropLast_eq_take, h]
    · simp [pushTrade, h]
  · intro h
    simp only [pushTrade, List.length_cons, List.length_take]
    omega

/-- Witness for `c8_push_bounded` at a concrete buffer of 100 trades. -/
theorem c8_push_bounded_witness :
    (pushTrade tr0 (List.replicate 100 tr0) = tr0 :: (List.replicate 100 tr0).dropLast ∧
      (pushTrade tr0 (List.replicate 100 tr0)).length = 100 ∧
      (pushTrade tr0 (List.replicate 100 tr0)).head? = some tr0) ∧
    (pushTrade tr0 (List.replicate 100 tr0)).length ≤ 100 :=
  ⟨(c8_push_bounded tr0 (List.replicate 100 tr0)).1 (by simp),
   (c8_push_bounded tr0 (List.replicate 100 tr0)).2 (by simp)⟩

/-! ## Claim C9 -/

/-- Claim C9 (confirmed): a string message that is not valid JSON is
discarded -- `handleTradeData` yields no Trade, the buffer is unchanged
by processing it, and the only notification emitted is the unconditional
informational toast, never an error toast. -/
theorem c9_malformed_discard (f : String) (n : ℚ) (s : String) (buf : List Trade)
    (h : parseJson s = none) :
    handleTradeData f n (.str s) = none ∧
    processMessage f n (.str s) buf = buf ∧
    handleTradeDataToasts (.str s) =
      [Toast.info "New message received - check console logs"] := by
  have hd : decodeMessage (.str s) = none := by
    simp only [decodeMessage]
    exact h
  have h1 : handleTradeData f n (.str s) = none := by
    unfold handleTradeData
    rw [hd]
  refine ⟨h1, ?_, rfl⟩
  unfold processMessage
  rw [h1]

/-- Witness for `c9_malformed_discard` at the concrete non-JSON string
"not json". -/
theorem c9_malformed_discard_witness :
    handleTradeData "u" 1 (.str "not json") = none ∧
    processMessage "u" 1 (.str "not json") [] = [] ∧
    handleTradeDataToasts (.str "not json") =
      [Toast.info "New message received - check console logs"] :=
  c9_malformed_discard "u" 1 "not json" [] rfl

/-! ## Claim C10 -/

/-- Claim C10 (confirmed): invoking `connectSmart` with a URL that trims
to the empty string is a no-op on the connection state machine: the state
(including the trade buffer) is returned unchanged, `setConnectionStatus`
is never called (so the status neither enters `connecting` nor reaches
`error`), and no transport attempt is made; only an instructional error
toast is shown. -/
theorem c10_blank_url_noop (url : String) (sio ws : Except String Unit) (s : ConnState)
    (h : jsTrim url = "") :
    connectSmart url sio ws s =
      { state := s
        statusTrace := []
        toasts := [.error "Please enter a WebSocket URL"]
        attempts := [] } ∧
    (connectSmart url sio ws s).state.trades = s.trades ∧
    ConnStatus.connecting ∉ (connectSmart url sio ws s).statusTrace ∧
    ConnStatus.error ∉ (connectSmart url sio ws s).statusTrace ∧
    (connectSmart url sio ws s).attempts = [] := by
  have h1 : connectSmart url sio ws s =
      { state := s
        statusTrace := []
        toasts := [.error "Please enter a WebSocket URL"]
        attempts := [] } := by
    unfold connectSmart
    rw [if_pos h]
  refine ⟨h1, ?_, ?_, ?_, ?_⟩ <;> rw [h1] <;> simp

/-- Witness for `c10_blank_url_noop` at a concrete whitespace-only URL. -/
theorem c10_blank_url_noop_witness :
    connectSmart "   " (Except.ok ()) (Except.ok ()) initState =
      { state := initState
        statusTrace := []
        toasts := [.error "Please enter a WebSocket URL"]
        attempts := [] } ∧
    (connectSmart "   " (Except.ok ()) (Except.ok ()) initState).state.trades =
      initState.trades ∧
    ConnStatus.connecting ∉
      (connectSmart "   " (Except.ok ()) (Except.ok ()) initState).statusTrace ∧
    ConnStatus.error ∉
      (connectSmart "   " (Except.ok ()) (Except.ok ()) initState).statusTrace ∧
    (connectSmart "   " (Except.ok ()) (Except.ok ()) initState).attempts = [] :=
  c10_blank_url_noop "   " (Except.ok ()) (Except.ok ()) initState rfl
